import Mathlib

set_option maxRecDepth 16384

/-!
Verification development for the `progress-tracker` crate
(`src/tools/progress-tracker/src/{lib.rs, dashboard.rs, main.rs}`).

Shallow-embedding conventions, used consistently below:

* `f32` values (unit-type weights, scores, percentages) are modelled as
  exact rationals (`ℚ`).  The Rust numerals `0.15`, `90.0`, … are written
  as the rationals they denote.
* `chrono::DateTime<Utc>` values are modelled as integer timestamps in
  seconds (`Int`); `chrono::Duration::num_days` is integer division of the
  second difference by 86400, truncated toward zero (`Int.tdiv`), exactly
  as `chrono` computes it on its millisecond representation.
* `u32`/`usize` counters are modelled as `Nat` (no claim involves values
  anywhere near the wrap-around range).
* `Vec<T>` is `List T`; `HashMap<String, f32>` (used only through `insert`
  with distinct keys and `get`) is an association list `List (String × ℚ)`
  queried with `List.lookup`.
* `Vec::sort_by`, a stable sort, is modelled by `List.insertionSort`,
  which is also stable for a total preorder, hence produces the same list.
* `Utc::now()` is threaded through as an explicit `now : Int` parameter.
-/

/-- `LearningStage` from lib.rs. -/
inductive LearningStage where
  | Stage1Basics
  | Stage2Ownership
  | Stage3AdvancedConcepts
  | Stage4Ecosystem
  | Stage5Projects
deriving DecidableEq

/-- `LearningStage::all_stages`. -/
def LearningStage.all_stages : List LearningStage :=
  [.Stage1Basics, .Stage2Ownership, .Stage3AdvancedConcepts, .Stage4Ecosystem, .Stage5Projects]

/-- `LearningStage::name`. -/
def LearningStage.name : LearningStage → String
  | .Stage1Basics => "阶段1: 基础入门"
  | .Stage2Ownership => "阶段2: 所有权系统"
  | .Stage3AdvancedConcepts => "阶段3: 高级概念"
  | .Stage4Ecosystem => "阶段4: 生态系统"
  | .Stage5Projects => "阶段5: 项目实战"

/-- The string `format!("{:?}", stage)` produced by the derived `Debug`
impl, used as the key of the per-stage progress map. -/
def LearningStage.debugName : LearningStage → String
  | .Stage1Basics => "Stage1Basics"
  | .Stage2Ownership => "Stage2Ownership"
  | .Stage3AdvancedConcepts => "Stage3AdvancedConcepts"
  | .Stage4Ecosystem => "Stage4Ecosystem"
  | .Stage5Projects => "Stage5Projects"

/-- `LearningUnitType` from lib.rs. -/
inductive LearningUnitType where
  | ContentReading
  | CodeExample
  | Exercise
  | Project
  | Assessment
deriving DecidableEq

/-- `LearningUnitType::name`. -/
def LearningUnitType.name : LearningUnitType → String
  | .ContentReading => "内容阅读"
  | .CodeExample => "代码示例"
  | .Exercise => "练习题"
  | .Project => "项目实战"
  | .Assessment => "自我评估"

/-- `LearningUnitType::weight` (f32 constants as exact rationals). -/
def LearningUnitType.weight : LearningUnitType → ℚ
  | .ContentReading => 15/100
  | .CodeExample => 25/100
  | .Exercise => 30/100
  | .Project => 20/100
  | .Assessment => 10/100

/-- `LearningUnitStatus` from lib.rs. -/
inductive LearningUnitStatus where
  | NotStarted
  | InProgress
  | Completed
  | Skipped
deriving DecidableEq

/-- `LearningUnitStatus::is_completed` (`matches!(self, Completed)`). -/
def LearningUnitStatus.is_completed : LearningUnitStatus → Bool
  | .Completed => true
  | _ => false

/-- `LearningUnit` from lib.rs (timestamps as `Int`, score as `ℚ`). -/
structure LearningUnit where
  id : String
  name : String
  unit_type : LearningUnitType
  stage : LearningStage
  path : String
  estimated_time_minutes : Nat
  status : LearningUnitStatus
  started_at : Option Int
  completed_at : Option Int
  score : Option ℚ
  notes : Option String
deriving DecidableEq

/-- `LearningUnit::new`. -/
def LearningUnit.new (id name : String) (unit_type : LearningUnitType)
    (stage : LearningStage) (path : String) (estimated_time_minutes : Nat) : LearningUnit :=
  { id := id, name := name, unit_type := unit_type, stage := stage, path := path,
    estimated_time_minutes := estimated_time_minutes, status := .NotStarted,
    started_at := none, completed_at := none, score := none, notes := none }

/-- `LearningUnit::start` (`Utc::now()` passed explicitly). -/
def LearningUnit.start (u : LearningUnit) (now : Int) : LearningUnit :=
  { u with status := .InProgress, started_at := some now }

/-- `LearningUnit::complete`. -/
def LearningUnit.complete (u : LearningUnit) (score : Option ℚ) (now : Int) : LearningUnit :=
  { u with status := .Completed, completed_at := some now, score := score }

/-- `LearningUnit::skip`. -/
def LearningUnit.skip (u : LearningUnit) : LearningUnit :=
  { u with status := .Skipped }

/-- `AchievementCondition` from lib.rs. -/
inductive AchievementCondition where
  | CompleteUnits (count : Nat) (unit_type : Option LearningUnitType)
  | CompleteStage (stage : LearningStage)
  | ScoreAverage (min_score : ℚ) (unit_count : Nat)
  | StreakDays (days : Nat)
  | TotalTime (hours : Nat)
deriving DecidableEq

/-- `AchievementRarity` from lib.rs. -/
inductive AchievementRarity where
  | Common
  | Rare
  | Epic
  | Legendary
deriving DecidableEq

/-- `Achievement` from lib.rs. -/
structure Achievement where
  id : String
  name : String
  description : String
  icon : String
  condition : AchievementCondition
  unlocked_at : Option Int
  rarity : AchievementRarity
deriving DecidableEq

/-- `ProgressStats` from lib.rs (`stage_progress` as an association list,
see the header comment). -/
structure ProgressStats where
  total_units : Nat
  completed_units : Nat
  in_progress_units : Nat
  skipped_units : Nat
  overall_progress : ℚ
  total_time_minutes : Nat
  completed_time_minutes : Nat
  average_score : Option ℚ
  current_stage : LearningStage
  stage_progress : List (String × ℚ)
deriving DecidableEq

/-- `LearningPathRecommendation` from lib.rs. -/
structure LearningPathRecommendation where
  next_units : List LearningUnit
  recommended_stage : LearningStage
  estimated_time_minutes : Nat
  confidence_score : ℚ
  reasoning : String
deriving DecidableEq

/-- `ProgressTracker` from lib.rs. -/
structure ProgressTracker where
  learner_id : String
  learner_name : String
  learning_units : List LearningUnit
  achievements : List Achievement
  created_at : Int
  last_updated : Int
deriving DecidableEq

/-- The three seed units pushed by `ProgressTracker::initialize_default_units`. -/
def defaultUnits : List LearningUnit :=
  [LearningUnit.new ("stage1-environment") ("环境搭建与基础配置") .ContentReading .Stage1Basics
      ("content/stage1-basics/01-environment") 60,
   LearningUnit.new ("stage1-syntax") ("基本语法与数据类型") .ContentReading .Stage1Basics
      ("content/stage1-basics/02-syntax") 120,
   LearningUnit.new ("stage1-syntax-demo") ("语法演示代码") .CodeExample .Stage1Basics
      ("examples/stage1-basics/02-syntax-demo") 45]

/-- The four seed achievements pushed by
`ProgressTracker::initialize_default_achievements`. -/
def defaultAchievements : List Achievement :=
  [{ id := "first_steps", name := "初次尝试", description := "完成第一个学习单元",
     icon := "🎯", condition := .CompleteUnits 1 none, unlocked_at := none,
     rarity := .Common },
   { id := "stage1_master", name := "基础大师", description := "完成阶段1所有内容",
     icon := "🌟", condition := .CompleteStage .Stage1Basics, unlocked_at := none,
     rarity := .Rare },
   { id := "code_warrior", name := "代码战士", description := "完成10个代码示例",
     icon := "⚔️", condition := .CompleteUnits 10 (some .CodeExample), unlocked_at := none,
     rarity := .Epic },
   { id := "perfect_student", name := "完美学生", description := "连续5个练习得分90分以上",
     icon := "🏆", condition := .ScoreAverage 90 5, unlocked_at := none,
     rarity := .Legendary }]

/-- `ProgressTracker::new` (both `Utc::now()` calls made at construction
are the same instant `now`). -/
def ProgressTracker.new (learner_id learner_name : String) (now : Int) : ProgressTracker :=
  { learner_id := learner_id, learner_name := learner_name,
    learning_units := defaultUnits, achievements := defaultAchievements,
    created_at := now, last_updated := now }

/-- `ProgressTracker::get_unit`. -/
def ProgressTracker.get_unit (t : ProgressTracker) (unit_id : String) : Option LearningUnit :=
  t.learning_units.find? (fun u => u.id == unit_id)

/-- Applies `f` to the first list element satisfying `p`; leaves the list
unchanged when none does.  Models the `get_unit_mut` + in-place mutation
pattern used by lib.rs tests and `main.rs::update_progress`. -/
def updateFirstBy (p : LearningUnit → Bool) (f : LearningUnit → LearningUnit) :
    List LearningUnit → List LearningUnit
  | [] => []
  | u :: us => if p u then f u :: us else u :: updateFirstBy p f us

/-- `tracker.get_unit_mut(unit_id)` followed by mutating the found unit
with `f` (a no-op when the id is absent, mirroring `if let Some(unit)`). -/
def ProgressTracker.modifyUnit (t : ProgressTracker) (unit_id : String)
    (f : LearningUnit → LearningUnit) : ProgressTracker :=
  { t with learning_units := updateFirstBy (fun u => u.id == unit_id) f t.learning_units }

/-- `ProgressTracker::add_unit`. -/
def ProgressTracker.add_unit (t : ProgressTracker) (u : LearningUnit) (now : Int) :
    ProgressTracker :=
  { t with learning_units := t.learning_units ++ [u], last_updated := now }

/-- Sum of unit-type weights over a unit list (the `total_weight` fold of
`get_progress_stats`). -/
def unitsTotalWeight (us : List LearningUnit) : ℚ :=
  (us.map (fun u => u.unit_type.weight)).sum

/-- Sum of unit-type weights over the completed units (the
`completed_weight` fold of `get_progress_stats`). -/
def unitsCompletedWeight (us : List LearningUnit) : ℚ :=
  ((us.filter (fun u => u.status.is_completed)).map (fun u => u.unit_type.weight)).sum

/-- The per-stage progress map of `get_progress_stats`: for every stage
with at least one unit, `(completed in stage) / (units in stage) × 100`,
keyed by the stage's `Debug` rendering. -/
def stageProgressMap (us : List LearningUnit) : List (String × ℚ) :=
  LearningStage.all_stages.foldr
    (fun stage acc =>
      let stage_units := us.filter (fun u => u.stage == stage)
      if stage_units.isEmpty then acc
      else (stage.debugName,
            ((stage_units.filter (fun u => u.status.is_completed)).length : ℚ)
              / (stage_units.length : ℚ) * 100) :: acc)
    []

/-- The `current_stage` computation of `get_progress_stats`: first stage
(in curriculum order) that has units and is not fully completed,
defaulting to `Stage5Projects`. -/
def currentStageOf (us : List LearningUnit) : LearningStage :=
  (LearningStage.all_stages.find? (fun stage =>
    let stage_units := us.filter (fun u => u.stage == stage)
    !stage_units.isEmpty &&
      (stage_units.filter (fun u => u.status.is_completed)).length < stage_units.length)).getD
    .Stage5Projects

/-- The body of `ProgressTracker::get_progress_stats`, which reads only
`self.learning_units`. -/
def statsOfUnits (us : List LearningUnit) : ProgressStats :=
  let total_units := us.length
  let completed_units := (us.filter (fun u => u.status.is_completed)).length
  let in_progress_units := (us.filter (fun u => u.status == .InProgress)).length
  let skipped_units := (us.filter (fun u => u.status == .Skipped)).length
  let total_weight := unitsTotalWeight us
  let completed_weight := unitsCompletedWeight us
  let overall_progress := if total_weight > 0 then completed_weight / total_weight * 100 else 0
  let total_time_minutes := (us.map (fun u => u.estimated_time_minutes)).sum
  let completed_time_minutes :=
    ((us.filter (fun u => u.status.is_completed)).map
      (fun u => u.estimated_time_minutes)).sum
  let completed_with_scores :=
    us.filter (fun u => u.status.is_completed && u.score.isSome)
  let average_score :=
    if !completed_with_scores.isEmpty then
      some ((completed_with_scores.filterMap (fun u => u.score)).sum
        / (completed_with_scores.length : ℚ))
    else none
  { total_units := total_units, completed_units := completed_units,
    in_progress_units := in_progress_units, skipped_units := skipped_units,
    overall_progress := overall_progress, total_time_minutes := total_time_minutes,
    completed_time_minutes := completed_time_minutes, average_score := average_score,
    current_stage := currentStageOf us,
    stage_progress := stageProgressMap us }

/-- `ProgressTracker::get_progress_stats`. -/
def ProgressTracker.get_progress_stats (t : ProgressTracker) : ProgressStats :=
  statsOfUnits t.learning_units

/-- Every unit-type weight is nonnegative. -/
theorem weight_nonneg (ty : LearningUnitType) : 0 ≤ ty.weight := by
  cases ty <;> norm_num [LearningUnitType.weight]

/-- The total weight of any unit list is nonnegative. -/
theorem unitsTotalWeight_nonneg (us : List LearningUnit) : 0 ≤ unitsTotalWeight us := by
  unfold unitsTotalWeight
  induction us with
  | nil => simp
  | cons u us ih =>
      simp only [List.map_cons, List.sum_cons]
      exact add_nonneg (weight_nonneg u.unit_type) ih

/-- The comparator closure passed to `candidates.sort_by` in
`get_learning_path_recommendation`: `NotStarted` before `InProgress`,
then unit-type weight descending (`b.weight.partial_cmp(&a.weight)`). -/
def recCmp (a b : LearningUnit) : Ordering :=
  let status_cmp : Ordering :=
    match a.status, b.status with
    | .NotStarted, .InProgress => .lt
    | .InProgress, .NotStarted => .gt
    | _, _ => .eq
  if status_cmp ≠ .eq then status_cmp
  else if b.unit_type.weight < a.unit_type.weight then .lt
  else if a.unit_type.weight < b.unit_type.weight then .gt
  else .eq

/-- The "may come before" relation induced by `recCmp`: `sort_by cmp`
places `a` before `b` whenever `cmp(a, b) != Greater`. -/
def recLE (a b : LearningUnit) : Prop := recCmp a b ≠ Ordering.gt

instance : DecidableRel recLE := fun a b => by unfold recLE; infer_instance

/-- `ProgressTracker::get_learning_path_recommendation`.  The stable
`Vec::sort_by` is modelled by the stable `List.insertionSort` (see the
header comment). -/
def ProgressTracker.get_learning_path_recommendation (t : ProgressTracker) :
    LearningPathRecommendation :=
  let stats := t.get_progress_stats
  let current_stage_units := t.learning_units.filter
    (fun u => u.stage == stats.current_stage && !u.status.is_completed)
  let candidates := current_stage_units.filter (fun u => !(u.status == .Skipped))
  let next_units := (List.insertionSort recLE candidates).take 5
  let estimated_time_minutes := next_units.foldl (fun acc u => acc + u.estimated_time_minutes) 0
  let confidence_score : ℚ :=
    if !next_units.isEmpty then
      ((stats.completed_units : ℚ) / (stats.total_units : ℚ)
        + ((stats.stage_progress.lookup stats.current_stage.debugName).getD 0) / 100) / 2
    else 0
  let reasoning :=
    if next_units.isEmpty then ("恭喜！您已完成所有学习单元。建议复习或开始实际项目练习。")
    else ("基于您的学习进度，推荐您接下来完成 " ++ stats.current_stage.name ++ " 的 "
      ++ toString next_units.length ++ " 个学习单元，预计需要 "
      ++ toString estimated_time_minutes ++ " 分钟。")
  { next_units := next_units, recommended_stage := stats.current_stage,
    estimated_time_minutes := estimated_time_minutes,
    confidence_score := confidence_score, reasoning := reasoning }

/-- The per-achievement `should_unlock` computation inside
`ProgressTracker::check_achievements`. -/
def shouldUnlock (units : List LearningUnit) (stats : ProgressStats) (now : Int)
    (a : Achievement) : Bool :=
  match a.condition with
  | .CompleteUnits count unit_type =>
      decide (count ≤ ((units.filter (fun u => u.status.is_completed)).filter (fun u =>
        match unit_type with
        | some ut => u.unit_type == ut
        | none => true)).length)
  | .CompleteStage stage =>
      decide ((stats.stage_progress.lookup stage.debugName).getD 0 ≥ 100)
  | .ScoreAverage min_score unit_count =>
      match stats.average_score with
      | some avg =>
          decide (avg ≥ min_score) &&
            decide (unit_count ≤
              (units.filter (fun u => u.status.is_completed && u.score.isSome)).length)
      | none => false
  | .StreakDays days =>
      decide (3 ≤ ((units.filter (fun u => u.status.is_completed)).filter (fun u =>
        match u.completed_at with
        | some c => decide ((now - c).tdiv 86400 ≤ (days : Int))
        | none => false)).length)
  | .TotalTime hours => decide (hours ≤ stats.completed_time_minutes / 60)

/-- The `for achievement in &mut self.achievements` loop of
`check_achievements`: returns the updated achievement list and the ids
newly unlocked, in storage order. -/
def checkAux (units : List LearningUnit) (stats : ProgressStats) (now : Int) :
    List Achievement → List Achievement × List String
  | [] => ([], [])
  | a :: rest =>
      let r := checkAux units stats now rest
      if a.unlocked_at.isSome then (a :: r.1, r.2)
      else if shouldUnlock units stats now a then
        ({ a with unlocked_at := some now } :: r.1, a.id :: r.2)
      else (a :: r.1, r.2)

/-- `ProgressTracker::check_achievements`: `last_updated` is refreshed
only when at least one achievement was newly unlocked. -/
def ProgressTracker.check_achievements (t : ProgressTracker) (now : Int) :
    ProgressTracker × List String :=
  let stats := t.get_progress_stats
  let r := checkAux t.learning_units stats now t.achievements
  ({ t with
      achievements := r.1,
      last_updated := if r.2.isEmpty then t.last_updated else now }, r.2)

/-- `ProgressTracker::get_personalized_suggestions`. -/
def ProgressTracker.get_personalized_suggestions (t : ProgressTracker) : List String :=
  let stats := t.get_progress_stats
  let s1 : List String :=
    if stats.overall_progress < 20 then
      ["🎯 刚开始学习 Rust，建议从基础语法开始，每天保持 30-60 分钟的学习时间。"]
    else if stats.overall_progress < 50 then
      ["📈 学习进展良好！建议继续深入理解所有权系统，这是 Rust 的核心概念。"]
    else if stats.overall_progress < 80 then
      ["🚀 已经掌握了 Rust 的基础知识，可以开始尝试一些实际项目来巩固所学内容。"]
    else
      ["🏆 恭喜！您已经完成了大部分学习内容，建议开始贡献开源项目或开发个人项目。"]
  let s2 : List String :=
    match stats.average_score with
    | some avg =>
        if avg < 70 then ["📚 建议多复习之前的内容，确保对基础概念有深入理解。"]
        else if avg ≥ 90 then ["⭐ 您的学习成绩非常优秀！可以考虑挑战更高级的内容或帮助他人学习。"]
        else []
    | none => []
  let total_hours := stats.completed_time_minutes / 60
  let s3 : List String :=
    if total_hours < 10 then ["⏰ 建议增加学习时间，Rust 需要持续的练习才能掌握。"]
    else if total_hours > 100 then ["💪 您已经投入了大量时间学习，坚持下去一定会取得成功！"]
    else []
  let s4 : List String :=
    match currentStageOf t.learning_units with
    | .Stage1Basics => ["🔧 重点掌握 Rust 的基础语法和开发环境配置。"]
    | .Stage2Ownership => ["🔑 所有权系统是 Rust 的核心，建议多做练习加深理解。"]
    | .Stage3AdvancedConcepts => ["🎨 学习如何使用 Rust 的高级特性构建更复杂的程序。"]
    | .Stage4Ecosystem => ["🌐 了解 Rust 生态系统，学习使用常用的第三方库。"]
    | .Stage5Projects => ["💼 通过实际项目来综合运用所学知识，提升实战能力。"]
  s1 ++ s2 ++ s3 ++ s4

/-- The `"2" | "complete"` branch of `main.rs::update_progress`:
the parse result of the score input (`none` when unparsable) is filtered
to `[0, 100]` and handed to `LearningUnit::complete`. -/
def cliComplete (u : LearningUnit) (parsed : Option ℚ) (now : Int) : LearningUnit :=
  let score := parsed.filter (fun s => decide (0 ≤ s) && decide (s ≤ 100))
  u.complete score now

/-- A concrete unit in the terminal state `Completed`. -/
def c2CompletedUnit : LearningUnit :=
  (LearningUnit.new ("test-unit") ("测试单元") .ContentReading .Stage1Basics ("test/path") 60).complete
    (some 90) 5

/-- C2 counterexample: `start` moves a `Completed` unit back to
`InProgress`, so the terminal states do admit further transitions. -/
theorem c2_terminal_states_counterexample :
    c2CompletedUnit.status = .Completed ∧
    (c2CompletedUnit.start 6).status ≠ .Completed ∧
    (c2CompletedUnit.start 6).status ≠ .Skipped ∧
    (c2CompletedUnit.start 6).status = .InProgress := by
  refine ⟨rfl, ?_, ?_, rfl⟩ <;> decide

/-- C2 (amended): the unit operations are unconditional setters — `start`
always yields `InProgress`, `complete` always yields `Completed`, `skip`
always yields `Skipped`, regardless of the prior status; in particular
`Completed`/`Skipped` are not enforced as terminal states. -/
theorem c2_unit_operations_unconditional (u : LearningUnit) (s : Option ℚ) (now : Int) :
    (u.start now).status = .InProgress ∧
    (u.complete s now).status = .Completed ∧
    u.skip.status = .Skipped := by
  exact ⟨rfl, rfl, rfl⟩

/-- The seed tracker of the C3 scenario. -/
def c3Base : ProgressTracker := ProgressTracker.new ("learner") ("学习者") 0

/-- Seed tracker with only unit A (`stage1-environment`) completed. -/
def c3One : ProgressTracker :=
  c3Base.modifyUnit ("stage1-environment") (fun u => u.complete (some 90) 10)

/-- Seed tracker with units A and B completed. -/
def c3Two : ProgressTracker :=
  c3One.modifyUnit ("stage1-syntax") (fun u => u.complete none 20)

/-- Seed tracker with all three default units completed. -/
def c3Three : ProgressTracker :=
  c3Two.modifyUnit ("stage1-syntax-demo") (fun u => u.complete none 30)

/-- C3: `overall_progress` is the completed-weight share times 100 (0 when
the total weight is 0), and on the default seed (weights 0.15, 0.15, 0.25)
completing one, two, all three units yields 300/11 ≈ 27.27 %,
600/11 ≈ 54.55 %, and 100 %. -/
theorem c3_overall_progress_weighted :
    (∀ t : ProgressTracker,
      t.get_progress_stats.overall_progress =
        if unitsTotalWeight t.learning_units = 0 then 0
        else unitsCompletedWeight t.learning_units / unitsTotalWeight t.learning_units * 100) ∧
    c3One.get_progress_stats.overall_progress = 300/11 ∧
    |c3One.get_progress_stats.overall_progress - 2727/100| < 1/100 ∧
    c3Two.get_progress_stats.overall_progress = 600/11 ∧
    |c3Two.get_progress_stats.overall_progress - 5455/100| < 1/100 ∧
    c3Three.get_progress_stats.overall_progress = 100 := by
  refine ⟨?_, by with_unfolding_all rfl, ?_, by with_unfolding_all rfl, ?_,
    by with_unfolding_all rfl⟩
  · intro t
    have h := unitsTotalWeight_nonneg t.learning_units
    rcases eq_or_lt_of_le h with h0 | hpos
    · simp [ProgressTracker.get_progress_stats, statsOfUnits, ← h0]
    · simp [ProgressTracker.get_progress_stats, statsOfUnits, hpos, ne_of_gt hpos]
  · have h1 : c3One.get_progress_stats.overall_progress = 300/11 := by
      with_unfolding_all rfl
    rw [h1]; rw [abs_sub_lt_iff]; constructor <;> norm_num
  · have h2 : c3Two.get_progress_stats.overall_progress = 600/11 := by
      with_unfolding_all rfl
    rw [h2]; rw [abs_sub_lt_iff]; constructor <;> norm_num

/-- C9: an unparsable (`parsed = none`) or out-of-range score supplied at
completion time is treated as "no score" — the unit's `score` becomes
`none` — and the unit still transitions to `Completed`. -/
theorem c9_soft_score_validation (u : LearningUnit) (parsed : Option ℚ) (now : Int)
    (h : parsed = none ∨ ∀ s : ℚ, parsed = some s → ¬(0 ≤ s ∧ s ≤ 100)) :
    (cliComplete u parsed now).score = none ∧
    (cliComplete u parsed now).status = .Completed := by
  constructor
  · rcases h with h | h
    · simp [cliComplete, h, LearningUnit.complete, Option.filter]
    · rcases hp : parsed with _ | s
      · simp [cliComplete, hp, LearningUnit.complete, Option.filter]
      · have hs := h s hp
        have : ¬(0 ≤ s) ∨ ¬(s ≤ 100) := by tauto
        rcases this with hs' | hs' <;>
          simp [cliComplete, hp, LearningUnit.complete, Option.filter, hs']
  · rfl

/-- C9 witness: the concrete out-of-range score 150 is dropped while the
unit still completes. -/
theorem c9_soft_score_validation_witness :
    (cliComplete c2CompletedUnit (some 150) 7).score = none ∧
    (cliComplete c2CompletedUnit (some 150) 7).status = .Completed := by
  exact c9_soft_score_validation c2CompletedUnit (some 150) 7
    (Or.inr (by
      intro s hs hrange
      cases hs
      exact absurd hrange.2 (of_decide_eq_true (by with_unfolding_all rfl))))

/-- Truncating division by a positive divisor is monotone, matching
`chrono::Duration::num_days` on a growing duration. -/
theorem tdiv_mono_of_le {a b d : Int} (hd : 0 < d) (h : a ≤ b) : a.tdiv d ≤ b.tdiv d := by
  rcases le_or_lt 0 a with ha | ha
  · have hb : 0 ≤ b := ha.trans h
    rw [Int.tdiv_eq_ediv ha hd.le, Int.tdiv_eq_ediv hb hd.le]
    exact Int.ediv_le_ediv hd h
  · rcases le_or_lt 0 b with hb | hb
    · have e1 := Int.neg_tdiv a d
      have h1 : 0 ≤ (-a).tdiv d := Int.tdiv_nonneg (by omega) hd.le
      have h2 : 0 ≤ b.tdiv d := Int.tdiv_nonneg hb hd.le
      omega
    · have e1 := Int.neg_tdiv a d
      have e2 := Int.neg_tdiv b d
      have h3 : (-b).tdiv d ≤ (-a).tdiv d := by
        rw [Int.tdiv_eq_ediv (by omega) hd.le, Int.tdiv_eq_ediv (by omega) hd.le]
        exact Int.ediv_le_ediv hd (by omega)
      omega

/-- A condition that failed to unlock stays failed at any later instant:
only the `StreakDays` arm reads `now`, and its within-window unit count can
only shrink as time advances. -/
theorem shouldUnlock_false_mono (units : List LearningUnit) (stats : ProgressStats)
    {now₁ now₂ : Int} (h : now₁ ≤ now₂) (a : Achievement)
    (hf : shouldUnlock units stats now₁ a = false) :
    shouldUnlock units stats now₂ a = false := by
  rcases hc : a.condition with ⟨count, unit_type⟩ | ⟨stage⟩ | ⟨min_score, unit_count⟩ |
    ⟨days⟩ | ⟨hours⟩
  · simp only [shouldUnlock, hc] at hf ⊢
    exact hf
  · simp only [shouldUnlock, hc] at hf ⊢
    exact hf
  · simp only [shouldUnlock, hc] at hf ⊢
    exact hf
  · simp only [shouldUnlock, hc, decide_eq_false_iff_not, not_le] at hf ⊢
    refine lt_of_le_of_lt ?_ hf
    rw [← List.countP_eq_length_filter, ← List.countP_eq_length_filter]
    refine List.countP_mono_left ?_
    intro u _ hu
    rcases hcc : u.completed_at with _ | c
    · simp [hcc] at hu
    · simp only [hcc, decide_eq_true_eq] at hu ⊢
      calc (now₁ - c).tdiv 86400 ≤ (now₂ - c).tdiv 86400 :=
            tdiv_mono_of_le (by omega) (by omega)
        _ ≤ (days : Int) := hu
  · simp only [shouldUnlock, hc] at hf ⊢
    exact hf

/-- An already-unlocked achievement record passes through the
`check_achievements` loop untouched. -/
theorem checkAux_preserves_unlocked (units : List LearningUnit) (stats : ProgressStats)
    (now : Int) :
    ∀ (l : List Achievement) (i : Nat) (a : Achievement),
      l[i]? = some a → a.unlocked_at.isSome = true →
      (checkAux units stats now l).1[i]? = some a
  | [], i, a, hi, _ => by simp at hi
  | x :: xs, 0, a, hi, ha => by
      simp only [List.getElem?_cons_zero, Option.some.injEq] at hi
      subst hi
      simp [checkAux, ha]
  | x :: xs, i + 1, a, hi, ha => by
      simp only [List.getElem?_cons_succ] at hi
      have ih := checkAux_preserves_unlocked units stats now xs i a hi ha
      by_cases hx : x.unlocked_at.isSome = true
      · simp [checkAux, hx, ih]
      · by_cases hs : shouldUnlock units stats now x = true
        · simp [checkAux, hx, hs, ih]
        · simp [checkAux, hx, hs, ih]

/-- Rerunning the loop on its own output at any later instant unlocks
nothing new. -/
theorem checkAux_twice (units : List LearningUnit) (stats : ProgressStats)
    {now₁ now₂ : Int} (h : now₁ ≤ now₂) :
    ∀ l : List Achievement,
      (checkAux units stats now₂ (checkAux units stats now₁ l).1).2 = []
  | [] => by simp [checkAux]
  | a :: l => by
      have ih := checkAux_twice units stats h l
      by_cases ha : a.unlocked_at.isSome = true
      · simp [checkAux, ha, ih]
      · by_cases hs : shouldUnlock units stats now₁ a = true
        · simp [checkAux, ha, hs, ih]
        · have hs2 := shouldUnlock_false_mono units stats h a (by simpa using hs)
          simp [checkAux, ha, hs, hs2, ih]

/-- C4: once an achievement's `unlocked_at` is set, a later
`check_achievements` call (on any tracker state, so in particular after
arbitrary unit additions or mutations) leaves that achievement record —
including its `unlocked_at` timestamp — unchanged. -/
theorem c4_unlocked_at_monotone (t : ProgressTracker) (now : Int) (i : Nat)
    (a : Achievement) (hi : t.achievements[i]? = some a)
    (ha : a.unlocked_at.isSome = true) :
    (t.check_achievements now).1.achievements[i]? = some a := by
  simpa [ProgressTracker.check_achievements] using
    checkAux_preserves_unlocked t.learning_units t.get_progress_stats now
      t.achievements i a hi ha

/-- A tracker whose first achievement is already unlocked, for the C4
witness. -/
def c4Tracker : ProgressTracker :=
  { ProgressTracker.new ("w") ("witness") 0 with
      achievements :=
        [{ id := "first_steps", name := "初次尝试", description := "完成第一个学习单元",
           icon := "🎯", condition := .CompleteUnits 1 none, unlocked_at := some 5,
           rarity := .Common }] }

/-- C4 witness at a concrete tracker and index. -/
theorem c4_unlocked_at_monotone_witness :
    (c4Tracker.check_achievements 99).1.achievements[0]? =
      some { id := "first_steps", name := "初次尝试", description := "完成第一个学习单元",
             icon := "🎯", condition := .CompleteUnits 1 none, unlocked_at := some 5,
             rarity := .Common } := by
  exact c4_unlocked_at_monotone c4Tracker 99 0 _ rfl rfl

/-- C5: with no unit mutation in between, a second `check_achievements`
call (at the same or any later instant) returns an empty unlock list. -/
theorem c5_check_achievements_idempotent (t : ProgressTracker) (now₁ now₂ : Int)
    (h : now₁ ≤ now₂) :
    (((t.check_achievements now₁).1).check_achievements now₂).2 = [] := by
  have hu : (t.check_achievements now₁).1.learning_units = t.learning_units := rfl
  simp only [ProgressTracker.check_achievements, ProgressTracker.get_progress_stats, hu]
  exact checkAux_twice t.learning_units (statsOfUnits t.learning_units) h t.achievements

/-- C5 witness on the freshly seeded tracker. -/
theorem c5_check_achievements_idempotent_witness :
    (0 : Int) ≤ 1 ∧
    ((((ProgressTracker.new ("w") ("witness") 0).check_achievements 0).1).check_achievements
      1).2 = [] :=
  ⟨by decide, c5_check_achievements_idempotent (ProgressTracker.new ("w") ("witness") 0) 0 1
    (by decide)⟩

/-- An empty unlock list means the loop returned the achievement list
unchanged. -/
theorem checkAux_fst_of_snd_nil (units : List LearningUnit) (stats : ProgressStats)
    (now : Int) :
    ∀ l : List Achievement,
      (checkAux units stats now l).2 = [] → (checkAux units stats now l).1 = l
  | [] => by simp [checkAux]
  | a :: l => by
      intro hnil
      have ih := checkAux_fst_of_snd_nil units stats now l
      by_cases ha : a.unlocked_at.isSome = true
      · simp only [checkAux, ha, if_true] at hnil ⊢
        simp [ih hnil]
      · by_cases hs : shouldUnlock units stats now a = true
        · simp [checkAux, ha, hs] at hnil
        · simp only [checkAux, ha, hs, if_false] at hnil ⊢
          simp [ih hnil]

/-- C10: when `check_achievements` unlocks nothing, the tracker is left
completely unchanged — every unit, every achievement (in particular every
`unlocked_at` field) and `last_updated` keep their prior values. -/
theorem c10_no_unlock_no_mutation (t : ProgressTracker) (now : Int)
    (h : (t.check_achievements now).2 = []) :
    (t.check_achievements now).1 = t := by
  simp only [ProgressTracker.check_achievements] at h ⊢
  rw [checkAux_fst_of_snd_nil _ _ _ _ h, h]
  simp

/-- C10 witness: the freshly seeded tracker (nothing completed) unlocks
nothing and is returned unchanged. -/
theorem c10_no_unlock_no_mutation_witness :
    ((ProgressTracker.new ("w") ("witness") 0).check_achievements 3).2 = [] ∧
    ((ProgressTracker.new ("w") ("witness") 0).check_achievements 3).1 =
      ProgressTracker.new ("w") ("witness") 0 := by
  have h : ((ProgressTracker.new ("w") ("witness") 0).check_achievements 3).2 = [] := by
    with_unfolding_all rfl
  exact ⟨h, c10_no_unlock_no_mutation (ProgressTracker.new ("w") ("witness") 0) 3 h⟩

/-- The candidate predicate of the recommendation claim, written from the
spec: units of the current stage whose status is neither `Completed` nor
`Skipped`. -/
def specCandidate (s : LearningStage) (u : LearningUnit) : Bool :=
  u.stage == s && !(u.status == LearningUnitStatus.Completed)
    && !(u.status == LearningUnitStatus.Skipped)

/-- The ordering of the recommendation claim, written from the spec:
`NotStarted` units sort before `InProgress` units and, within equal
start-status, unit-type weight sorts descending. -/
def specLe (a b : LearningUnit) : Prop :=
  (a.status = .NotStarted ∧ b.status = .InProgress) ∨
  (a.status = b.status ∧ b.unit_type.weight ≤ a.unit_type.weight)

instance : DecidableRel specLe := fun a b => by unfold specLe; infer_instance

/-- The spec ordering is transitive (on all units). -/
theorem specLe_trans : ∀ x y z : LearningUnit, specLe x y → specLe y z → specLe x z := by
  intro x y z hxy hyz
  rcases hxy with ⟨hx, hy⟩ | ⟨hxy, hw⟩
  · rcases hyz with ⟨hy', hz⟩ | ⟨hyz, hw'⟩
    · rw [hy] at hy'; cases hy'
    · exact Or.inl ⟨hx, hyz ▸ hy⟩
  · rcases hyz with ⟨hy', hz⟩ | ⟨hyz, hw'⟩
    · exact Or.inl ⟨hxy ▸ hy', hz⟩
    · exact Or.inr ⟨hxy.trans hyz, hw'.trans hw⟩

/-- The spec ordering is total on units that are neither completed nor
skipped. -/
theorem specLe_total {a b : LearningUnit}
    (ha : a.status = .NotStarted ∨ a.status = .InProgress)
    (hb : b.status = .NotStarted ∨ b.status = .InProgress) :
    specLe a b ∨ specLe b a := by
  rcases ha with ha | ha <;> rcases hb with hb | hb
  · rcases le_total b.unit_type.weight a.unit_type.weight with h | h
    · exact Or.inl (Or.inr ⟨ha.trans hb.symm, h⟩)
    · exact Or.inr (Or.inr ⟨hb.trans ha.symm, h⟩)
  · exact Or.inl (Or.inl ⟨ha, hb⟩)
  · exact Or.inr (Or.inl ⟨hb, ha⟩)
  · rcases le_total b.unit_type.weight a.unit_type.weight with h | h
    · exact Or.inl (Or.inr ⟨ha.trans hb.symm, h⟩)
    · exact Or.inr (Or.inr ⟨hb.trans ha.symm, h⟩)

/-- Inserting into a sorted list keeps it sorted, assuming transitivity
and comparability of the inserted element with the list elements. -/
theorem pairwise_orderedInsert {α : Type} (r : α → α → Prop) [DecidableRel r]
    (trans : ∀ x y z : α, r x y → r y z → r x z) (a : α) :
    ∀ l : List α, (∀ x ∈ l, r a x ∨ r x a) → l.Pairwise r →
      (List.orderedInsert r a l).Pairwise r
  | [], _, _ => by simp
  | b :: l, tot, hl => by
      by_cases hab : r a b
      · rw [List.orderedInsert, if_pos hab]
        refine List.Pairwise.cons ?_ hl
        intro x hx
        rcases List.mem_cons.mp hx with rfl | hx
        · exact hab
        · exact trans a b x hab (List.rel_of_pairwise_cons hl hx)
      · rw [List.orderedInsert, if_neg hab]
        have hba : r b a := by
          rcases tot b (by simp) with h | h
          · exact absurd h hab
          · exact h
        refine List.Pairwise.cons ?_ ?_
        · intro x hx
          rcases (List.mem_orderedInsert r).mp hx with hx | hx
          · exact hx ▸ hba
          · exact List.rel_of_pairwise_cons hl hx
        · exact pairwise_orderedInsert r trans a l
            (fun x hx => tot x (List.mem_cons_of_mem b hx)) hl.of_cons

/-- The insertion sort of a list whose elements are pairwise comparable
under a transitive relation is sorted. -/
theorem pairwise_insertionSort {α : Type} (r : α → α → Prop) [DecidableRel r]
    (trans : ∀ x y z : α, r x y → r y z → r x z) :
    ∀ l : List α, (∀ x ∈ l, ∀ y ∈ l, r x y ∨ r y x) →
      (List.insertionSort r l).Pairwise r
  | [], _ => by simp
  | a :: l, tot => by
      show (List.orderedInsert r a (List.insertionSort r l)).Pairwise r
      refine pairwise_orderedInsert r trans a _ ?_ ?_
      · intro x hx
        have hx' : x ∈ l := ((List.perm_insertionSort r l).mem_iff).mp hx
        exact tot a (by simp) x (List.mem_cons_of_mem a hx')
      · exact pairwise_insertionSort r trans l
          (fun x hx y hy => tot x (List.mem_cons_of_mem a hx) y (List.mem_cons_of_mem a hy))

/-- `is_completed` agrees with equality to `Completed`. -/
theorem is_completed_eq (s : LearningUnitStatus) :
    s.is_completed = (s == LearningUnitStatus.Completed) := by
  cases s <;> rfl

/-- On units that are neither completed nor skipped, the code comparator
relation `recLE` coincides with the spec ordering `specLe`. -/
theorem recCmp_gt_iff {a b : LearningUnit}
    (ha : a.status = .NotStarted ∨ a.status = .InProgress)
    (hb : b.status = .NotStarted ∨ b.status = .InProgress) :
    recCmp a b = .gt ↔
      ((a.status = .InProgress ∧ b.status = .NotStarted) ∨
        (a.status = b.status ∧ a.unit_type.weight < b.unit_type.weight)) := by
  rcases ha with ha | ha <;> rcases hb with hb | hb <;>
    simp only [recCmp, ha, hb] <;>
    split_ifs with h1 h2 <;>
    simp_all [asymm, not_lt]

theorem recLE_iff_specLe {a b : LearningUnit}
    (ha : a.status = .NotStarted ∨ a.status = .InProgress)
    (hb : b.status = .NotStarted ∨ b.status = .InProgress) :
    recLE a b ↔ specLe a b := by
  rw [recLE, Ne, recCmp_gt_iff ha hb]
  rcases ha with ha | ha <;> rcases hb with hb | hb <;>
    simp [specLe, ha, hb, not_lt]

/-- A unit passing the candidate filter is `NotStarted` or `InProgress`. -/
theorem specCandidate_status {s : LearningStage} {u : LearningUnit}
    (h : specCandidate s u = true) :
    u.status = .NotStarted ∨ u.status = .InProgress := by
  cases hst : u.status
  case NotStarted => exact Or.inl rfl
  case InProgress => exact Or.inr rfl
  case Completed => simp [specCandidate, hst] at h
  case Skipped => simp [specCandidate, hst] at h

/-- The two successive filters of `get_learning_path_recommendation`
select exactly the spec candidates. -/
theorem filters_eq_specCandidate (s : LearningStage) (us : List LearningUnit) :
    (us.filter (fun u => u.stage == s && !u.status.is_completed)).filter
        (fun u => !(u.status == LearningUnitStatus.Skipped)) =
      us.filter (specCandidate s) := by
  rw [List.filter_filter]
  refine List.filter_congr ?_
  intro u _
  show (!(u.status == LearningUnitStatus.Skipped) && (u.stage == s && !u.status.is_completed))
      = specCandidate s u
  unfold specCandidate
  rw [is_completed_eq]
  cases hb : (u.stage == s) <;> cases u.status <;> rfl

/-- Sorting the candidates by the code comparator equals sorting them by
the spec ordering. -/
theorem sort_candidates_eq (s : LearningStage) (us : List LearningUnit) :
    List.insertionSort recLE (us.filter (specCandidate s)) =
      List.insertionSort specLe (us.filter (specCandidate s)) := by
  have h := List.map_insertionSort recLE specLe id (us.filter (specCandidate s)) ?_
  · simpa using h
  · intro a hma b hmb
    exact recLE_iff_specLe (specCandidate_status (List.mem_filter.mp hma).2)
      (specCandidate_status (List.mem_filter.mp hmb).2)

/-- Accumulating estimated minutes over the selection loop is summation. -/
theorem foldl_estimated :
    ∀ (l : List LearningUnit) (n : Nat),
      l.foldl (fun acc u => acc + u.estimated_time_minutes) n =
        n + (l.map (fun u => u.estimated_time_minutes)).sum
  | [], n => by simp
  | u :: l, n => by
      simp only [List.foldl_cons, List.map_cons, List.sum_cons]
      rw [foldl_estimated l (n + u.estimated_time_minutes)]
      omega

/-- C6: `next_units` is exactly the first 5 of the current-stage units
that are neither completed nor skipped, sorted by the spec ordering
(`NotStarted` first, then weight descending); every selected unit is a
candidate; the selection is sorted; its length is capped at 5; and
`estimated_time_minutes` is the sum of the selected units' estimates. -/
theorem c6_recommendation_next_units (t : ProgressTracker) :
    t.get_learning_path_recommendation.next_units =
      (List.insertionSort specLe
        (t.learning_units.filter (specCandidate t.get_progress_stats.current_stage))).take 5 ∧
    (∀ u ∈ t.get_learning_path_recommendation.next_units,
      u.stage = t.get_progress_stats.current_stage ∧
      u.status ≠ .Completed ∧ u.status ≠ .Skipped) ∧
    t.get_learning_path_recommendation.next_units.Pairwise specLe ∧
    t.get_learning_path_recommendation.next_units.length =
      min 5 (t.learning_units.filter
        (specCandidate t.get_progress_stats.current_stage)).length ∧
    t.get_learning_path_recommendation.estimated_time_minutes =
      (t.get_learning_path_recommendation.next_units.map
        (fun u => u.estimated_time_minutes)).sum := by
  have hnext : t.get_learning_path_recommendation.next_units =
      (List.insertionSort specLe
        (t.learning_units.filter (specCandidate t.get_progress_stats.current_stage))).take 5 := by
    show (List.insertionSort recLE
        ((t.learning_units.filter
          (fun u => u.stage == t.get_progress_stats.current_stage && !u.status.is_completed)).filter
          (fun u => !(u.status == LearningUnitStatus.Skipped)))).take 5 = _
    rw [filters_eq_specCandidate, sort_candidates_eq]
  have hcand_tot : ∀ x ∈ t.learning_units.filter
        (specCandidate t.get_progress_stats.current_stage),
      ∀ y ∈ t.learning_units.filter (specCandidate t.get_progress_stats.current_stage),
      specLe x y ∨ specLe y x := by
    intro x hx y hy
    exact specLe_total (specCandidate_status (List.mem_filter.mp hx).2)
      (specCandidate_status (List.mem_filter.mp hy).2)
  refine ⟨hnext, ?_, ?_, ?_, ?_⟩
  · intro u hu
    rw [hnext] at hu
    have h1 := (List.take_sublist 5 _).subset hu
    have h2 := ((List.perm_insertionSort specLe _).mem_iff).mp h1
    have h3 := (List.mem_filter.mp h2).2
    have hst := specCandidate_status h3
    refine ⟨?_, ?_, ?_⟩
    · have := h3
      simp only [specCandidate, Bool.and_eq_true, beq_iff_eq] at this
      exact this.1.1
    · rcases hst with h | h <;> simp [h]
    · rcases hst with h | h <;> simp [h]
  · rw [hnext]
    exact List.Pairwise.sublist (List.take_sublist 5 _)
      (pairwise_insertionSort specLe specLe_trans _ hcand_tot)
  · rw [hnext]
    simp [List.length_take, List.length_insertionSort]
  · have hest : t.get_learning_path_recommendation.estimated_time_minutes =
        t.get_learning_path_recommendation.next_units.foldl
          (fun acc u => acc + u.estimated_time_minutes) 0 := rfl
    rw [hest, foldl_estimated]
    omega

/-- `str::repeat`. -/
def strRepeat (s : String) : Nat → String
  | 0 => ""
  | n + 1 => s ++ strRepeat s n

/-- Rust `{:.1}` formatting of a (nonnegative in all uses) f32, modelled
as rounding the rational to one decimal place. -/
def fmtFixed1 (q : ℚ) : String :=
  let n : Int := round (q * 10)
  (if n < 0 then "-" else "") ++ toString (n.natAbs / 10) ++ "." ++ toString (n.natAbs % 10)

/-- Rust `{:.0}` formatting, modelled as rounding to an integer. -/
def fmtFixed0 (q : ℚ) : String :=
  (if round q < 0 then "-" else "") ++ toString (round q).natAbs

/-- `DashboardRenderer::create_progress_bar`.  The cast
`((percentage / 100.0) * width as f32) as usize` truncates toward zero
and saturates below at 0, which on rationals is `Int.toNat ∘ Int.floor`
(floor and truncation agree after the clamp to `Nat`). -/
def create_progress_bar (percentage : ℚ) (width : Nat) : String :=
  let filled_width : Nat := (⌊percentage / 100 * (width : ℚ)⌋).toNat
  let empty_width := width - filled_width
  "[" ++ strRepeat ("█") filled_width ++ strRepeat ("░") empty_width ++ "] "
    ++ fmtFixed1 percentage ++ "%"

/-- C8 counterexample: at 99 % and width 40 the code renders
⌊39.6⌋ = 39 filled cells, not round(39.6) = 40 as the claim states. -/
theorem c8_round_counterexample :
    round ((99 : ℚ) / 100 * 40) = 40 ∧
    create_progress_bar 99 40 =
      "[" ++ strRepeat ("█") 39 ++ strRepeat ("░") 1 ++ "] " ++ "99.0" ++ "%" ∧
    create_progress_bar 99 40 ≠
      "[" ++ strRepeat ("█") (round ((99 : ℚ) / 100 * 40)).toNat
        ++ strRepeat ("░") (40 - (round ((99 : ℚ) / 100 * 40)).toNat) ++ "] "
        ++ fmtFixed1 99 ++ "%" := by
  refine ⟨by with_unfolding_all rfl, by with_unfolding_all rfl, ?_⟩
  exact of_decide_eq_true (by with_unfolding_all rfl)

/-- C8 (amended): for percentages in [0, 100] the text progress bar
consists of `⌊pct/100 × W⌋` (floor, not round) filled cells followed by
the remaining `W − ⌊pct/100 × W⌋` empty cells. -/
theorem c8_progress_bar_floor (pct : ℚ) (W : Nat) (_hpct0 : 0 ≤ pct) (h100 : pct ≤ 100) :
    create_progress_bar pct W =
      "[" ++ strRepeat ("█") ((⌊pct / 100 * (W : ℚ)⌋).toNat)
        ++ strRepeat ("░") (W - (⌊pct / 100 * (W : ℚ)⌋).toNat) ++ "] "
        ++ fmtFixed1 pct ++ "%" ∧
    (⌊pct / 100 * (W : ℚ)⌋).toNat ≤ W := by
  refine ⟨rfl, ?_⟩
  have hx : pct / 100 * (W : ℚ) ≤ (W : ℚ) := by
    have h1 : pct / 100 ≤ 1 := by linarith
    have h2 : (0 : ℚ) ≤ (W : ℚ) := by positivity
    calc pct / 100 * (W : ℚ) ≤ 1 * (W : ℚ) := by
          exact mul_le_mul_of_nonneg_right h1 h2
      _ = (W : ℚ) := one_mul _
  have hf : ⌊pct / 100 * (W : ℚ)⌋ ≤ (W : Int) := by
    calc ⌊pct / 100 * (W : ℚ)⌋ ≤ ⌊(W : ℚ)⌋ := Int.floor_le_floor hx
      _ = (W : Int) := Int.floor_natCast W
  omega

/-- C8 witness at 50 % and width 10. -/
theorem c8_progress_bar_floor_witness :
    (0 : ℚ) ≤ 50 ∧ (50 : ℚ) ≤ 100 ∧
    (create_progress_bar 50 10 =
      "[" ++ strRepeat ("█") ((⌊(50 : ℚ) / 100 * (10 : ℚ)⌋).toNat)
        ++ strRepeat ("░") (10 - (⌊(50 : ℚ) / 100 * (10 : ℚ)⌋).toNat) ++ "] "
        ++ fmtFixed1 50 ++ "%" ∧
    (⌊(50 : ℚ) / 100 * (10 : ℚ)⌋).toNat ≤ 10) :=
  ⟨of_decide_eq_true (by with_unfolding_all rfl),
   of_decide_eq_true (by with_unfolding_all rfl),
   c8_progress_bar_floor 50 10 (of_decide_eq_true (by with_unfolding_all rfl))
     (of_decide_eq_true (by with_unfolding_all rfl))⟩

/-- `DashboardTheme` from dashboard.rs. -/
structure DashboardTheme where
  primary_color : String
  success_color : String
  warning_color : String
  danger_color : String
  info_color : String
  text_color : String
  background_color : String
deriving DecidableEq

/-- `DashboardTheme::default`. -/
def DashboardTheme.default : DashboardTheme :=
  { primary_color := "#007bff", success_color := "#28a745", warning_color := "#ffc107",
    danger_color := "#dc3545", info_color := "#17a2b8", text_color := "#333333",
    background_color := "#ffffff" }

/-- `DashboardConfig` from dashboard.rs. -/
structure DashboardConfig where
  show_progress_bars : Bool
  show_stage_breakdown : Bool
  show_achievements : Bool
  show_recommendations : Bool
  show_suggestions : Bool
  max_recommendations : Nat
  theme : DashboardTheme
deriving DecidableEq

/-- `DashboardConfig::default`. -/
def DashboardConfig.default : DashboardConfig :=
  { show_progress_bars := true, show_stage_breakdown := true, show_achievements := true,
    show_recommendations := true, show_suggestions := true, max_recommendations := 5,
    theme := DashboardTheme.default }

/-- `DashboardRenderer` from dashboard.rs. -/
structure DashboardRenderer where
  config : DashboardConfig

/-- `DashboardRenderer::new`. -/
def DashboardRenderer.new (config : DashboardConfig) : DashboardRenderer :=
  { config := config }

/-- `DashboardRenderer::format_datetime`.  The chrono calendar rendering
`"%Y-%m-%d %H:%M:%S UTC"` is modelled as the decimal timestamp value
followed by `" UTC"` — per the spec the renderer simply echoes the stored
timestamp value. -/
def format_datetime (dt : Int) : String := toString dt ++ " UTC"

/-- Rust `f32::to_string` (used for the markup confidence figure),
modelled by the canonical rational rendering. -/
def ratDisplay (q : ℚ) : String := toString q

/-- The status glyph of `render_stage_breakdown`. -/
def statusIcon : LearningUnitStatus → String
  | .NotStarted => "📋"
  | .InProgress => "🔄"
  | .Completed => "✅"
  | .Skipped => "⏭️"

/-- The rarity glyph of `render_achievements`. -/
def rarityIcon : AchievementRarity → String
  | .Common => "🌟"
  | .Rare => "⭐"
  | .Epic => "🌟"
  | .Legendary => "💫"

/-- `DashboardRenderer::render_header`.  The `render_*` section methods
read only the tracker (never `self.config`), so they are embedded as
functions of the tracker. -/
def render_header (t : ProgressTracker) : String :=
  "\n┏━━━━━━━━━━━━━━━━━━━━━━━━━━━━━━━━━━━━━━━━━━━━━━━━━━━━━━━━━━━━━━━━━━━━━━━━━━━━━━┓\n┃                           🦀 Rust 学习进度跟踪系统                           ┃\n┗━━━━━━━━━━━━━━━━━━━━━━━━━━━━━━━━━━━━━━━━━━━━━━━━━━━━━━━━━━━━━━━━━━━━━━━━━━━━━━┛\n\n👋 学习者: " ++ t.learner_name ++ "\n📅 最后更新: " ++ format_datetime t.last_updated ++ "\n"

/-- `DashboardRenderer::render_overall_progress`. -/
def render_overall_progress (t : ProgressTracker) : String :=
  let stats := t.get_progress_stats
  "\n📊 总体学习进度\n━━━━━━━━━━━━━━━━━━━━━━━━━━━━━━━━━━━━━━━━━━━━━━━━━━━━━━━━━━━━━━━━━━━━━━━━━━━━━━━\n" ++ create_progress_bar stats.overall_progress 40
    ++ "\n\n✅ 已完成: " ++ toString stats.completed_units
    ++ " 个单元    🔄 进行中: " ++ toString stats.in_progress_units
    ++ " 个单元    📋 总计: " ++ toString stats.total_units
    ++ " 个单元\n🎯 平均分数: " ++ (match stats.average_score with | some s => fmtFixed1 s | none => ("无"))
    ++ "    ⏱️  总学习时间: " ++ toString stats.completed_time_minutes ++ " 分钟\n"

/-- The 79-character separator line used by the text sections. -/
def sep79 : String := "━━━━━━━━━━━━━━━━━━━━━━━━━━━━━━━━━━━━━━━━━━━━━━━━━━━━━━━━━━━━━━━━━━━━━━━━━━━━━━━"

/-- `DashboardRenderer::render_stage_breakdown`. -/
def render_stage_breakdown (t : ProgressTracker) : String :=
  let stats := t.get_progress_stats
  "\n📋 各阶段学习进度\n" ++ sep79 ++ "\n"
    ++ String.join (LearningStage.all_stages.map (fun stage =>
        stage.name ++ "\n"
          ++ create_progress_bar ((stats.stage_progress.lookup stage.debugName).getD 0) 30
          ++ String.join ((t.learning_units.filter (fun u => u.stage == stage)).map (fun u =>
              "  " ++ statusIcon u.status ++ " " ++ u.name
                ++ (match u.score with
                    | some s => (" [") ++ fmtFixed0 s ++ "]"
                    | none => (""))
                ++ "\n"))
          ++ "\n"))

/-- `DashboardRenderer::render_achievements`. -/
def render_achievements (t : ProgressTracker) : String :=
  let unlocked := t.achievements.filter (fun a => a.unlocked_at.isSome)
  let locked := t.achievements.filter (fun a => a.unlocked_at.isNone)
  "\n🏆 成就系统\n" ++ sep79 ++ "\n"
    ++ (if !unlocked.isEmpty then
          ("\n✨ 已解锁成就:\n")
            ++ String.join (unlocked.map (fun a =>
                "  " ++ rarityIcon a.rarity ++ " " ++ a.name ++ " - " ++ a.description ++ "\n"))
        else (""))
    ++ (if !locked.isEmpty then
          ("\n🔒 未解锁成就: ") ++ toString locked.length ++ " 个\n"
        else (""))

/-- `DashboardRenderer::render_recommendations`. -/
def render_recommendations (t : ProgressTracker) : String :=
  let recommendation := t.get_learning_path_recommendation
  "\n🎯 学习路径推荐\n" ++ sep79 ++ "\n"
    ++ (if recommendation.next_units.isEmpty then
          ("\n🎉 恭喜！您已完成所有学习单元。\n")
            ++ "💡 建议开始实际项目练习或复习之前的内容。\n"
        else
          ("\n💡 ") ++ recommendation.reasoning ++ "\n"
            ++ "📅 预计学习时间: " ++ toString recommendation.estimated_time_minutes ++ " 分钟\n"
            ++ "🎯 推荐置信度: " ++ fmtFixed0 (recommendation.confidence_score * 100) ++ "%\n\n"
            ++ "📚 推荐学习单元:\n"
            ++ String.join (recommendation.next_units.enum.map (fun p =>
                "  " ++ toString (p.1 + 1) ++ ". " ++ p.2.name ++ " (" ++ p.2.unit_type.name
                  ++ " - " ++ toString p.2.estimated_time_minutes ++ " 分钟)\n")))

/-- `DashboardRenderer::render_suggestions`. -/
def render_suggestions (t : ProgressTracker) : String :=
  let suggestions := t.get_personalized_suggestions
  "\n💡 个性化学习建议\n" ++ sep79 ++ "\n"
    ++ String.join (suggestions.enum.map (fun p => toString (p.1 + 1) ++ " " ++ p.2 ++ "\n"))

/-- `DashboardRenderer::render_footer`. -/
def render_footer (_t : ProgressTracker) : String :=
  "\n━━━━━━━━━━━━━━━━━━━━━━━━━━━━━━━━━━━━━━━━━━━━━━━━━━━━━━━━━━━━━━━━━━━━━━━━━━━━━━━\n🦀 Rust 学习进度跟踪系统 - 让学习更高效，让进步看得见！\n"

/-- `DashboardRenderer::render`: fixed section order, each optional
section gated by its toggle and omitted entirely (empty string) when the
toggle is off. -/
def DashboardRenderer.render (self : DashboardRenderer) (t : ProgressTracker) : String :=
  render_header t
    ++ (if self.config.show_progress_bars then render_overall_progress t else (""))
    ++ (if self.config.show_stage_breakdown then render_stage_breakdown t else (""))
    ++ (if self.config.show_achievements then render_achievements t else (""))
    ++ (if self.config.show_recommendations then render_recommendations t else (""))
    ++ (if self.config.show_suggestions then render_suggestions t else (""))
    ++ render_footer t

/-- The CSS constant of `generate_html_dashboard`. -/
def CSS_STYLES : String :=
  "\n        * \x7b\n            margin: 0;\n            padding: 0;\n            box-sizing: border-box;\n        \x7d\n        \n        body \x7b\n            font-family: \x27Segoe UI\x27, Tahoma, Geneva, Verdana, sans-serif;\n            line-height: 1.6;\n            color: #333;\n            background: linear-gradient(135deg, #667eea 0%, #764ba2 100%);\n            min-height: 100vh;\n        \x7d\n        \n        .container \x7b\n            max-width: 1200px;\n            margin: 0 auto;\n            padding: 20px;\n        \x7d\n        \n        .dashboard \x7b\n            background: white;\n            border-radius: 15px;\n            box-shadow: 0 20px 40px rgba(0,0,0,0.1);\n            overflow: hidden;\n        \x7d\n        \n        .header \x7b\n            background: linear-gradient(135deg, #667eea 0%, #764ba2 100%);\n            color: white;\n            padding: 30px;\n            text-align: center;\n        \x7d\n        \n        .header h1 \x7b\n            font-size: 2.5em;\n            margin-bottom: 10px;\n            text-shadow: 2px 2px 4px rgba(0,0,0,0.3);\n        \x7d\n        \n        .learner-info \x7b\n            font-size: 1.2em;\n            opacity: 0.9;\n        \x7d\n        \n        .content \x7b\n            padding: 30px;\n        \x7d\n        \n        .section \x7b\n            margin-bottom: 40px;\n            padding: 25px;\n            background: #f8f9fa;\n            border-radius: 10px;\n            border-left: 5px solid #667eea;\n        \x7d\n        \n        .section h2 \x7b\n            color: #667eea;\n            margin-bottom: 20px;\n            font-size: 1.8em;\n        \x7d\n        \n        .progress-container \x7b\n            margin: 20px 0;\n        \x7d\n        \n        .progress-bar \x7b\n            background: #e9ecef;\n            border-radius: 10px;\n            overflow: hidden;\n            height: 30px;\n            position: relative;\n        \x7d\n        \n        .progress-fill \x7b\n            background: linear-gradient(90deg, #28a745, #20c997);\n            height: 100%;\n            border-radius: 10px;\n            transition: width 0.3s ease;\n            position: relative;\n        \x7d\n        \n        .progress-text \x7b\n            position: absolute;\n            top: 50%;\n            left: 50%;\n            transform: translate(-50%, -50%);\n            color: white;\n            font-weight: bold;\n            font-size: 1.1em;\n            text-shadow: 1px 1px 2px rgba(0,0,0,0.5);\n        \x7d\n        \n        .stats-grid \x7b\n            display: grid;\n            grid-template-columns: repeat(auto-fit, minmax(200px, 1fr));\n            gap: 20px;\n            margin: 20px 0;\n        \x7d\n        \n        .stat-card \x7b\n            background: white;\n            padding: 20px;\n            border-radius: 10px;\n            text-align: center;\n            box-shadow: 0 5px 15px rgba(0,0,0,0.1);\n            border-top: 3px solid #667eea;\n        \x7d\n        \n        .stat-number \x7b\n            font-size: 2em;\n            font-weight: bold;\n            color: #667eea;\n            margin-bottom: 5px;\n        \x7d\n        \n        .stat-label \x7b\n            color: #666;\n            font-size: 0.9em;\n        \x7d\n        \n        .achievement-grid \x7b\n            display: grid;\n            grid-template-columns: repeat(auto-fit, minmax(250px, 1fr));\n            gap: 15px;\n            margin: 20px 0;\n        \x7d\n        \n        .achievement-card \x7b\n            background: white;\n            padding: 20px;\n            border-radius: 10px;\n            box-shadow: 0 5px 15px rgba(0,0,0,0.1);\n            border-left: 4px solid #ffc107;\n            transition: transform 0.2s ease;\n        \x7d\n        \n        .achievement-card:hover \x7b\n            transform: translateY(-2px);\n        \x7d\n        \n        .achievement-title \x7b\n            font-weight: bold;\n            color: #333;\n            margin-bottom: 5px;\n        \x7d\n        \n        .achievement-desc \x7b\n            color: #666;\n            font-size: 0.9em;\n        \x7d\n        \n        .recommendation-list \x7b\n            list-style: none;\n            margin: 20px 0;\n        \x7d\n        \n        .recommendation-item \x7b\n            background: white;\n            margin: 10px 0;\n            padding: 15px;\n            border-radius: 8px;\n            border-left: 4px solid #28a745;\n            box-shadow: 0 3px 10px rgba(0,0,0,0.1);\n        \x7d\n        \n        .suggestion-list \x7b\n            list-style: none;\n            margin: 20px 0;\n        \x7d\n        \n        .suggestion-item \x7b\n            background: white;\n            margin: 10px 0;\n            padding: 15px;\n            border-radius: 8px;\n            border-left: 4px solid #17a2b8;\n            box-shadow: 0 3px 10px rgba(0,0,0,0.1);\n        \x7d\n        \n        .footer \x7b\n            background: #343a40;\n            color: white;\n            text-align: center;\n            padding: 20px;\n            font-size: 0.9em;\n        \x7d\n        \n        @media (max-width: 768px) \x7b\n            .container \x7b\n                padding: 10px;\n            \x7d\n            \n            .header h1 \x7b\n                font-size: 2em;\n            \x7d\n            \n            .stats-grid \x7b\n                grid-template-columns: repeat(2, 1fr);\n            \x7d\n        \x7d\n    "

/-- The fixed head of the markup document. -/
def htmlHead : String :=
  "<!DOCTYPE html>\n<html lang=\"zh-CN\">\n<head>\n"
    ++ "    <meta charset=\"UTF-8\">\n"
    ++ "    <meta name=\"viewport\" content=\"width=device-width, initial-scale=1.0\">\n"
    ++ "    <title>Rust 学习进度跟踪系统</title>\n"
    ++ "    <style>\n" ++ CSS_STYLES ++ "    </style>\n</head>\n<body>\n"

/-- The header/overview block of the markup document (the large
`format!` call of `generate_html_dashboard`). -/
def htmlMain (t : ProgressTracker) : String :=
  let stats := t.get_progress_stats
  "    <div class=\"container\">\n        <div class=\"dashboard\">\n            <div class=\"header\">\n                <h1>🦀 Rust 学习进度跟踪系统</h1>\n                <div class=\"learner-info\">\n                    👋 学习者: " ++ t.learner_name
    ++ " | 📅 最后更新: " ++ format_datetime t.last_updated
    ++ "\n                </div>\n            </div>\n            \n            <div class=\"content\">\n                <div class=\"section\">\n                    <h2>📊 总体学习进度</h2>\n                    <div class=\"progress-container\">\n                        <div class=\"progress-bar\">\n                            <div class=\"progress-fill\" style=\"width: " ++ fmtFixed1 stats.overall_progress
    ++ "%\">\n                                <div class=\"progress-text\">" ++ fmtFixed1 stats.overall_progress
    ++ "%</div>\n                            </div>\n                        </div>\n                    </div>\n                    <div class=\"stats-grid\">\n                        <div class=\"stat-card\">\n                            <div class=\"stat-number\">" ++ toString stats.completed_units
    ++ "</div>\n                            <div class=\"stat-label\">已完成单元</div>\n                        </div>\n                        <div class=\"stat-card\">\n                            <div class=\"stat-number\">" ++ toString stats.in_progress_units
    ++ "</div>\n                            <div class=\"stat-label\">进行中单元</div>\n                        </div>\n                        <div class=\"stat-card\">\n                            <div class=\"stat-number\">" ++ toString stats.total_units
    ++ "</div>\n                            <div class=\"stat-label\">总单元数</div>\n                        </div>\n                        <div class=\"stat-card\">\n                            <div class=\"stat-number\">" ++ toString stats.completed_time_minutes
    ++ "</div>\n                            <div class=\"stat-label\">总学习时间 (分钟)</div>\n                        </div>\n                    </div>\n                </div>\n                \n                <div class=\"section\">\n                    <h2>🏆 已解锁成就</h2>\n                    <div class=\"achievement-grid\">\n"

/-- The achievement-card block of the markup document. -/
def achievementHtml (t : ProgressTracker) : String :=
  let unlocked := t.achievements.filter (fun a => a.unlocked_at.isSome)
  String.join (unlocked.map (fun a =>
      "                        <div class=\"achievement-card\">\n"
        ++ "                            <div class=\"achievement-title\">" ++ a.name ++ "</div>\n"
        ++ "                            <div class=\"achievement-desc\">" ++ a.description ++ "</div>\n"
        ++ "                        </div>\n"))
    ++ (if unlocked.isEmpty then
          ("                        <p style=\x27text-align: center; color: #666;\x27>暂无已解锁成就</p>\n")
        else (""))

/-- Closes the achievement grid and its section. -/
def achGridClose : String := "                    </div>\n                </div>\n"

/-- The recommendation block of the markup document. -/
def recommendationHtml (t : ProgressTracker) : String :=
  let recommendation := t.get_learning_path_recommendation
  "                <div class=\"section\">\n"
    ++ "                    <h2>🎯 学习路径推荐</h2>\n"
    ++ "                    <p><strong>推荐阶段:</strong> " ++ recommendation.recommended_stage.name ++ "</p>\n"
    ++ "                    <p><strong>预计学习时间:</strong> " ++ toString recommendation.estimated_time_minutes ++ " 分钟</p>\n"
    ++ "                    <p><strong>推荐置信度:</strong> " ++ ratDisplay (recommendation.confidence_score * 100) ++ "%</p>\n"
    ++ "                    <p><strong>推荐理由:</strong> " ++ recommendation.reasoning ++ "</p>\n"
    ++ "                    <ul class=\"recommendation-list\">\n"
    ++ String.join (recommendation.next_units.enum.map (fun p =>
        "                        <li class=\"recommendation-item\">\n"
          ++ "                            <strong>" ++ toString (p.1 + 1) ++ ".</strong> " ++ p.2.name
          ++ " (" ++ p.2.unit_type.name ++ " - " ++ toString p.2.estimated_time_minutes ++ " 分钟)\n"
          ++ "                        </li>\n"))
    ++ (if recommendation.next_units.isEmpty then
          ("                        <p style=\x27text-align: center; color: #666;\x27>暂无推荐学习单元</p>\n")
        else (""))
    ++ "                    </ul>\n"
    ++ "                </div>\n"

/-- The fixed opener of the suggestions section of the markup document. -/
def suggestionsHeaderHtml : String :=
  "                <div class=\"section\">\n                    <h2>💡 个性化学习建议</h2>\n                    <ul class=\"suggestion-list\">\n"

/-- The suggestion items of the markup document. -/
def suggestionItemsHtml (t : ProgressTracker) : String :=
  let suggestions := t.get_personalized_suggestions
  String.join (suggestions.map (fun s =>
      "                        <li class=\"suggestion-item\">" ++ s ++ "</li>\n"))
    ++ (if suggestions.isEmpty then
          ("                        <p style=\x27text-align: center; color: #666;\x27>暂无个性化建议</p>\n")
        else (""))

/-- The fixed tail of the markup document. -/
def htmlTail : String :=
  "                    </ul>\n                </div>\n            </div>\n            \n            <div class=\"footer\">\n                🦀 Rust 学习进度跟踪系统 - 让学习更高效，让进步看得见！\n            </div>\n        </div>\n    </div>\n</body>\n</html>"

/-- `generate_html_dashboard` from dashboard.rs.  Note that it takes no
`DashboardConfig`: the markup report renders every section
unconditionally. -/
def generate_html_dashboard (t : ProgressTracker) : String :=
  htmlHead ++ htmlMain t ++ achievementHtml t ++ achGridClose ++ recommendationHtml t
    ++ suggestionsHeaderHtml ++ suggestionItemsHtml t ++ htmlTail


/-- A concrete tracker for the C1 counterexample. -/
def c1Tracker : ProgressTracker := ProgressTracker.new ("demo") ("演示用户") 0

/-- C1 counterexample: the markup report is produced by
`generate_html_dashboard`, which takes no `DashboardConfig` at all — so
under the claim's configuration with `show_suggestions = false` the
markup output still contains the (non-empty) suggestions section, instead
of having it removed. -/
theorem c1_toggle_counterexample :
    generate_html_dashboard c1Tracker =
      (htmlHead ++ htmlMain c1Tracker ++ achievementHtml c1Tracker ++ achGridClose
        ++ recommendationHtml c1Tracker)
      ++ (suggestionsHeaderHtml ++ suggestionItemsHtml c1Tracker) ++ htmlTail ∧
    suggestionsHeaderHtml ++ suggestionItemsHtml c1Tracker ≠ "" := by
  constructor
  · simp [generate_html_dashboard, String.append_assoc]
  · intro hEq
    have hl := congrArg String.length hEq
    rw [String.length_append] at hl
    have hpos : 0 < suggestionsHeaderHtml.length := by decide
    simp at hl
    omega

/-- C1 (amended): in the text report, turning any single section toggle
off removes exactly that section's content and leaves every other byte
unchanged (the same prefix `A` and suffix `B` surround the section when
it is on); the markup report takes no `DashboardConfig`, renders all
sections unconditionally, and in particular always contains the
(non-empty) suggestions section. -/
theorem c1_section_toggles (cfg : DashboardConfig) (t : ProgressTracker) :
    (∃ A B, (DashboardRenderer.new { cfg with show_progress_bars := true }).render t
        = A ++ render_overall_progress t ++ B ∧
      (DashboardRenderer.new { cfg with show_progress_bars := false }).render t = A ++ B) ∧
    (∃ A B, (DashboardRenderer.new { cfg with show_stage_breakdown := true }).render t
        = A ++ render_stage_breakdown t ++ B ∧
      (DashboardRenderer.new { cfg with show_stage_breakdown := false }).render t = A ++ B) ∧
    (∃ A B, (DashboardRenderer.new { cfg with show_achievements := true }).render t
        = A ++ render_achievements t ++ B ∧
      (DashboardRenderer.new { cfg with show_achievements := false }).render t = A ++ B) ∧
    (∃ A B, (DashboardRenderer.new { cfg with show_recommendations := true }).render t
        = A ++ render_recommendations t ++ B ∧
      (DashboardRenderer.new { cfg with show_recommendations := false }).render t = A ++ B) ∧
    (∃ A B, (DashboardRenderer.new { cfg with show_suggestions := true }).render t
        = A ++ render_suggestions t ++ B ∧
      (DashboardRenderer.new { cfg with show_suggestions := false }).render t = A ++ B) ∧
    (∃ A B, generate_html_dashboard t
        = A ++ (suggestionsHeaderHtml ++ suggestionItemsHtml t) ++ B) ∧
    suggestionsHeaderHtml ++ suggestionItemsHtml t ≠ "" := by
  refine ⟨?_, ?_, ?_, ?_, ?_, ?_, ?_⟩
  · refine ⟨render_header t,
      (if cfg.show_stage_breakdown then render_stage_breakdown t else ("")) ++
      ((if cfg.show_achievements then render_achievements t else ("")) ++
      ((if cfg.show_recommendations then render_recommendations t else ("")) ++
      ((if cfg.show_suggestions then render_suggestions t else ("")) ++ render_footer t))),
      ?_, ?_⟩ <;>
    simp [DashboardRenderer.render, DashboardRenderer.new, String.append_assoc]
  · refine ⟨render_header t ++
      (if cfg.show_progress_bars then render_overall_progress t else ("")),
      (if cfg.show_achievements then render_achievements t else ("")) ++
      ((if cfg.show_recommendations then render_recommendations t else ("")) ++
      ((if cfg.show_suggestions then render_suggestions t else ("")) ++ render_footer t)),
      ?_, ?_⟩ <;>
    simp [DashboardRenderer.render, DashboardRenderer.new, String.append_assoc]
  · refine ⟨render_header t ++
      ((if cfg.show_progress_bars then render_overall_progress t else ("")) ++
       (if cfg.show_stage_breakdown then render_stage_breakdown t else (""))),
      (if cfg.show_recommendations then render_recommendations t else ("")) ++
      ((if cfg.show_suggestions then render_suggestions t else ("")) ++ render_footer t),
      ?_, ?_⟩ <;>
    simp [DashboardRenderer.render, DashboardRenderer.new, String.append_assoc]
  · refine ⟨render_header t ++
      ((if cfg.show_progress_bars then render_overall_progress t else ("")) ++
       ((if cfg.show_stage_breakdown then render_stage_breakdown t else ("")) ++
        (if cfg.show_achievements then render_achievements t else ("")))),
      (if cfg.show_suggestions then render_suggestions t else ("")) ++ render_footer t,
      ?_, ?_⟩ <;>
    simp [DashboardRenderer.render, DashboardRenderer.new, String.append_assoc]
  · refine ⟨render_header t ++
      ((if cfg.show_progress_bars then render_overall_progress t else ("")) ++
       ((if cfg.show_stage_breakdown then render_stage_breakdown t else ("")) ++
        ((if cfg.show_achievements then render_achievements t else ("")) ++
         (if cfg.show_recommendations then render_recommendations t else (""))))),
      render_footer t, ?_, ?_⟩ <;>
    simp [DashboardRenderer.render, DashboardRenderer.new, String.append_assoc]
  · exact ⟨htmlHead ++ htmlMain t ++ achievementHtml t ++ achGridClose
      ++ recommendationHtml t, htmlTail, by
        simp [generate_html_dashboard, String.append_assoc]⟩
  · intro hEq
    have hl := congrArg String.length hEq
    rw [String.length_append] at hl
    have hpos : 0 < suggestionsHeaderHtml.length := by decide
    simp at hl
    omega

/-- A JSON document tree (the image of `serde_json::Value`), modelling the
structured document that `ProgressTracker::to_file` writes and
`from_file` reads.  Numbers are exact rationals (covering the `u32` and
modelled-`f32` fields) and the modelled integer timestamps are emitted
as numbers. -/
inductive Json where
  | null
  | bool (b : Bool)
  | num (q : ℚ)
  | str (s : String)
  | arr (elems : List Json)
  | obj (fields : List (String × Json))

/-- Whether a document node is `null`. -/
def Json.isNull : Json → Bool
  | .null => true
  | _ => false

/-- Serde encoding of `u32`/`usize` fields. -/
def encNat (n : Nat) : Json := .num (n : ℚ)

/-- Serde decoding of `u32`/`usize` fields. -/
def decNat : Json → Option Nat
  | .num q => if q.den = 1 ∧ 0 ≤ q.num then some q.num.toNat else none
  | _ => none

/-- Serde encoding of the modelled timestamps. -/
def encInt (i : Int) : Json := .num (i : ℚ)

/-- Serde decoding of the modelled timestamps. -/
def decInt : Json → Option Int
  | .num q => if q.den = 1 then some q.num else none
  | _ => none

/-- Serde encoding of the modelled `f32` fields. -/
def encRat (q : ℚ) : Json := .num q

/-- Serde decoding of the modelled `f32` fields. -/
def decRat : Json → Option ℚ
  | .num q => some q
  | _ => none

/-- Serde encoding of `String` fields. -/
def encStr (s : String) : Json := .str s

/-- Serde decoding of `String` fields. -/
def decStr : Json → Option String
  | .str s => some s
  | _ => none

/-- Serde encoding of `Option<T>`: `None ↦ null`, `Some x ↦ enc x`. -/
def encOpt {α : Type} (f : α → Json) : Option α → Json
  | none => .null
  | some x => f x

/-- Serde decoding of `Option<T>`: `null ↦ None`, otherwise delegate. -/
def decOpt {α : Type} (g : Json → Option α) (j : Json) : Option (Option α) :=
  if j.isNull then some none else (g j).map some

/-- Serde decoding of `Vec<T>` elements. -/
def decList {α : Type} (g : Json → Option α) : List Json → Option (List α)
  | [] => some []
  | j :: js => do
      let x ← g j
      let xs ← decList g js
      some (x :: xs)

/-- Round trip for `u32` fields. -/
theorem decNat_encNat (n : Nat) : decNat (encNat n) = some n := by
  simp [decNat, encNat]

/-- Round trip for timestamp fields. -/
theorem decInt_encInt (i : Int) : decInt (encInt i) = some i := by
  simp [decInt, encInt]

/-- Round trip for `f32` fields. -/
theorem decRat_encRat (q : ℚ) : decRat (encRat q) = some q := rfl

/-- Round trip for `String` fields. -/
theorem decStr_encStr (s : String) : decStr (encStr s) = some s := rfl

/-- Round trip for `Option<T>` fields whose payload never encodes to
`null`. -/
theorem decOpt_encOpt {α : Type} (f : α → Json) (g : Json → Option α)
    (h : ∀ x, g (f x) = some x) (hnn : ∀ x, (f x).isNull = false) :
    ∀ o : Option α, decOpt g (encOpt f o) = some o
  | none => rfl
  | some x => by simp [decOpt, encOpt, hnn x, h x]

/-- Round trip for `Vec<T>` fields. -/
theorem decList_encList {α : Type} (f : α → Json) (g : Json → Option α)
    (h : ∀ x, g (f x) = some x) :
    ∀ xs : List α, decList g (xs.map f) = some xs
  | [] => rfl
  | x :: xs => by simp [decList, h x, decList_encList f g h xs]

/-- Serde encoding of the unit enum `LearningStage` (variant name
string). -/
def encStage (s : LearningStage) : Json := .str s.debugName

/-- Serde decoding of `LearningStage`. -/
def decStage : Json → Option LearningStage
  | .str "Stage1Basics" => some .Stage1Basics
  | .str "Stage2Ownership" => some .Stage2Ownership
  | .str "Stage3AdvancedConcepts" => some .Stage3AdvancedConcepts
  | .str "Stage4Ecosystem" => some .Stage4Ecosystem
  | .str "Stage5Projects" => some .Stage5Projects
  | _ => none

/-- Serde encoding of `LearningUnitType`. -/
def encUnitType : LearningUnitType → Json
  | .ContentReading => .str "ContentReading"
  | .CodeExample => .str "CodeExample"
  | .Exercise => .str "Exercise"
  | .Project => .str "Project"
  | .Assessment => .str "Assessment"

/-- Serde decoding of `LearningUnitType`. -/
def decUnitType : Json → Option LearningUnitType
  | .str "ContentReading" => some .ContentReading
  | .str "CodeExample" => some .CodeExample
  | .str "Exercise" => some .Exercise
  | .str "Project" => some .Project
  | .str "Assessment" => some .Assessment
  | _ => none

/-- Serde encoding of `LearningUnitStatus`. -/
def encStatus : LearningUnitStatus → Json
  | .NotStarted => .str "NotStarted"
  | .InProgress => .str "InProgress"
  | .Completed => .str "Completed"
  | .Skipped => .str "Skipped"

/-- Serde decoding of `LearningUnitStatus`. -/
def decStatus : Json → Option LearningUnitStatus
  | .str "NotStarted" => some .NotStarted
  | .str "InProgress" => some .InProgress
  | .str "Completed" => some .Completed
  | .str "Skipped" => some .Skipped
  | _ => none

/-- Serde encoding of `AchievementRarity`. -/
def encRarity : AchievementRarity → Json
  | .Common => .str "Common"
  | .Rare => .str "Rare"
  | .Epic => .str "Epic"
  | .Legendary => .str "Legendary"

/-- Serde decoding of `AchievementRarity`. -/
def decRarity : Json → Option AchievementRarity
  | .str "Common" => some .Common
  | .str "Rare" => some .Rare
  | .str "Epic" => some .Epic
  | .str "Legendary" => some .Legendary
  | _ => none

/-- Round trip for `LearningStage`. -/
theorem decStage_encStage (s : LearningStage) : decStage (encStage s) = some s := by
  cases s <;> rfl

/-- Round trip for `LearningUnitType`. -/
theorem decUnitType_encUnitType (ty : LearningUnitType) :
    decUnitType (encUnitType ty) = some ty := by
  cases ty <;> rfl

/-- Round trip for `LearningUnitStatus`. -/
theorem decStatus_encStatus (s : LearningUnitStatus) : decStatus (encStatus s) = some s := by
  cases s <;> rfl

/-- Round trip for `AchievementRarity`. -/
theorem decRarity_encRarity (r : AchievementRarity) : decRarity (encRarity r) = some r := by
  cases r <;> rfl

/-- Serde encoding of `LearningUnit` (fields in declaration order). -/
def encUnit (u : LearningUnit) : Json :=
  .obj [("id", encStr u.id), ("name", encStr u.name),
        ("unit_type", encUnitType u.unit_type), ("stage", encStage u.stage),
        ("path", encStr u.path),
        ("estimated_time_minutes", encNat u.estimated_time_minutes),
        ("status", encStatus u.status),
        ("started_at", encOpt encInt u.started_at),
        ("completed_at", encOpt encInt u.completed_at),
        ("score", encOpt encRat u.score),
        ("notes", encOpt encStr u.notes)]

/-- Serde decoding of `LearningUnit` (field lookup by name). -/
def decUnit : Json → Option LearningUnit
  | .obj fields => do
      let id ← (fields.lookup ("id")).bind decStr
      let name ← (fields.lookup ("name")).bind decStr
      let unit_type ← (fields.lookup ("unit_type")).bind decUnitType
      let stage ← (fields.lookup ("stage")).bind decStage
      let path ← (fields.lookup ("path")).bind decStr
      let estimated_time_minutes ← (fields.lookup ("estimated_time_minutes")).bind decNat
      let status ← (fields.lookup ("status")).bind decStatus
      let started_at ← (fields.lookup ("started_at")).bind (decOpt decInt)
      let completed_at ← (fields.lookup ("completed_at")).bind (decOpt decInt)
      let score ← (fields.lookup ("score")).bind (decOpt decRat)
      let notes ← (fields.lookup ("notes")).bind (decOpt decStr)
      some { id := id, name := name, unit_type := unit_type, stage := stage, path := path,
             estimated_time_minutes := estimated_time_minutes, status := status,
             started_at := started_at, completed_at := completed_at, score := score,
             notes := notes }
  | _ => none

/-- Round trip for `LearningUnit`. -/
theorem decUnit_encUnit (u : LearningUnit) : decUnit (encUnit u) = some u := by
  simp [decUnit, encUnit, List.lookup, decStr_encStr, decStage_encStage, decUnitType_encUnitType,
    decStatus_encStatus, decNat_encNat,
    decOpt_encOpt encInt decInt decInt_encInt (fun i => rfl),
    decOpt_encOpt encRat decRat decRat_encRat (fun q => rfl),
    decOpt_encOpt encStr decStr decStr_encStr (fun s => rfl)]

/-- Serde encoding of the externally tagged `AchievementCondition`. -/
def encCondition : AchievementCondition → Json
  | .CompleteUnits count unit_type =>
      .obj [("CompleteUnits",
        .obj [("count", encNat count), ("unit_type", encOpt encUnitType unit_type)])]
  | .CompleteStage stage =>
      .obj [("CompleteStage", .obj [("stage", encStage stage)])]
  | .ScoreAverage min_score unit_count =>
      .obj [("ScoreAverage",
        .obj [("min_score", encRat min_score), ("unit_count", encNat unit_count)])]
  | .StreakDays days => .obj [("StreakDays", .obj [("days", encNat days)])]
  | .TotalTime hours => .obj [("TotalTime", .obj [("hours", encNat hours)])]

/-- Serde decoding of `AchievementCondition` (single-key tagged map). -/
def decCondition : Json → Option AchievementCondition
  | .obj [("CompleteUnits", .obj fields)] => do
      let count ← (fields.lookup ("count")).bind decNat
      let unit_type ← (fields.lookup ("unit_type")).bind (decOpt decUnitType)
      some (.CompleteUnits count unit_type)
  | .obj [("CompleteStage", .obj fields)] => do
      let stage ← (fields.lookup ("stage")).bind decStage
      some (.CompleteStage stage)
  | .obj [("ScoreAverage", .obj fields)] => do
      let min_score ← (fields.lookup ("min_score")).bind decRat
      let unit_count ← (fields.lookup ("unit_count")).bind decNat
      some (.ScoreAverage min_score unit_count)
  | .obj [("StreakDays", .obj fields)] => do
      let days ← (fields.lookup ("days")).bind decNat
      some (.StreakDays days)
  | .obj [("TotalTime", .obj fields)] => do
      let hours ← (fields.lookup ("hours")).bind decNat
      some (.TotalTime hours)
  | _ => none

/-- Round trip for `AchievementCondition`. -/
theorem decCondition_encCondition (c : AchievementCondition) :
    decCondition (encCondition c) = some c := by
  cases c <;>
    simp [decCondition, encCondition, List.lookup, decNat_encNat, decStage_encStage,
      decRat_encRat, decOpt_encOpt encUnitType decUnitType decUnitType_encUnitType
        (fun ty => by cases ty <;> rfl)]

/-- Serde encoding of `Achievement`. -/
def encAchievement (a : Achievement) : Json :=
  .obj [("id", encStr a.id), ("name", encStr a.name),
        ("description", encStr a.description), ("icon", encStr a.icon),
        ("condition", encCondition a.condition),
        ("unlocked_at", encOpt encInt a.unlocked_at),
        ("rarity", encRarity a.rarity)]

/-- Serde decoding of `Achievement`. -/
def decAchievement : Json → Option Achievement
  | .obj fields => do
      let id ← (fields.lookup ("id")).bind decStr
      let name ← (fields.lookup ("name")).bind decStr
      let description ← (fields.lookup ("description")).bind decStr
      let icon ← (fields.lookup ("icon")).bind decStr
      let condition ← (fields.lookup ("condition")).bind decCondition
      let unlocked_at ← (fields.lookup ("unlocked_at")).bind (decOpt decInt)
      let rarity ← (fields.lookup ("rarity")).bind decRarity
      some { id := id, name := name, description := description, icon := icon,
             condition := condition, unlocked_at := unlocked_at, rarity := rarity }
  | _ => none

/-- Round trip for `Achievement`. -/
theorem decAchievement_encAchievement (a : Achievement) :
    decAchievement (encAchievement a) = some a := by
  simp [decAchievement, encAchievement, List.lookup, decStr_encStr,
    decCondition_encCondition, decRarity_encRarity,
    decOpt_encOpt encInt decInt decInt_encInt (fun i => rfl)]

/-- Serde encoding of the aggregate `ProgressTracker` — the modelled
`serialize` of the persisted-state contract. -/
def serializeTracker (t : ProgressTracker) : Json :=
  .obj [("learner_id", encStr t.learner_id), ("learner_name", encStr t.learner_name),
        ("learning_units", .arr (t.learning_units.map encUnit)),
        ("achievements", .arr (t.achievements.map encAchievement)),
        ("created_at", encInt t.created_at), ("last_updated", encInt t.last_updated)]

/-- Serde decoding of `ProgressTracker` — the modelled `deserialize`. -/
def deserializeTracker : Json → Option ProgressTracker
  | .obj fields => do
      let learner_id ← (fields.lookup ("learner_id")).bind decStr
      let learner_name ← (fields.lookup ("learner_name")).bind decStr
      let learning_units ← (fields.lookup ("learning_units")).bind (fun j =>
        match j with
        | .arr elems => decList decUnit elems
        | _ => none)
      let achievements ← (fields.lookup ("achievements")).bind (fun j =>
        match j with
        | .arr elems => decList decAchievement elems
        | _ => none)
      let created_at ← (fields.lookup ("created_at")).bind decInt
      let last_updated ← (fields.lookup ("last_updated")).bind decInt
      some { learner_id := learner_id, learner_name := learner_name,
             learning_units := learning_units, achievements := achievements,
             created_at := created_at, last_updated := last_updated }
  | _ => none

/-- C7: deserializing the serialization of any tracker returns exactly
that tracker — every field, the nested unit and achievement collections,
and all nullable fields (`started_at`, `completed_at`, `score`, `notes`,
`unlocked_at`) included. -/
theorem c7_serialization_roundtrip (t : ProgressTracker) :
    deserializeTracker (serializeTracker t) = some t := by
  simp [deserializeTracker, serializeTracker, List.lookup, decStr_encStr,
    decInt_encInt, decList_encList encUnit decUnit decUnit_encUnit,
    decList_encList encAchievement decAchievement decAchievement_encAchievement]
